import Mathlib

/-!
Verification development for the packet capture subsystem of TextCast-TV
(`backend/services/packet_monitor.py` and `backend/services/db_service.py`).

The module-level mutable state of `packet_monitor.py` (`_monitor_thread`,
`_current_session_id`, `_stop_event`, `_app`, the lock) is embedded as an
explicit `World` record; `start_monitor` / `stop_monitor` / `is_running`
become state-passing functions.  Thread aliveness is tracked as the list of
thread ids whose capture loop has not yet exited, and `threading.Event`
objects are identified by an allocation counter, with the set of events that
have been `.set()` tracked as a list of ids.  Since every mutation in the
source happens under the single `_state_lock`, the interleaving-free
state-transition semantics is faithful.

The capture loop (`_capture_loop`) is embedded as a function over a script of
per-iteration observations (was the stop event set at the top of the `while`,
what did `scapy.sniff` do, was the stop event set inside the `except` arm),
producing the trace of log/sleep events and whether the loop has exited.

The per-packet sink (`_handle_packet`) is embedded with Python exceptions
made explicit: a computation is a pair of an event trace and an optional
uncaught exception, `try/except` blocks become the `tryCatch` combinator,
and the collaborators (`db_service.log_packet`, `_socketio.emit`) are
modelled by their call events plus a flag saying whether they raise.
-/

namespace PacketMonitor

/-- One capture thread as created by `start_monitor`: its thread identity,
the id of the `threading.Event` it was bound to (`stop_event` argument of
`_capture_loop`), and the session id it was started with. -/
structure ThreadRec where
  tid : Nat
  tokenId : Nat
  sessionId : Int
deriving DecidableEq, Repr

/-- The module-level state of `packet_monitor.py`, plus the bookkeeping
needed to observe aliveness and event signalling:
`monitorThread` is `_monitor_thread`, `currentSessionId` is
`_current_session_id`, `stopEventId` is `_stop_event` (by allocation id),
`appHandle` is `_app`; `nextTok`/`nextTid` are allocation counters so that
`threading.Event()` / `threading.Thread(...)` mint fresh identities;
`alive` is the set (as a list) of tids of capture threads that have not
exited; `setTokens` is the set of event ids on which `.set()` was called;
`spawned` records every thread ever created. -/
structure World where
  monitorThread : Option ThreadRec
  currentSessionId : Option Int
  stopEventId : Option Nat
  appHandle : Option Nat
  nextTok : Nat
  nextTid : Nat
  alive : List Nat
  setTokens : List Nat
  spawned : List ThreadRec
deriving DecidableEq, Repr

/-- The state at module import time: no thread, no session, no event. -/
def initWorld : World :=
  { monitorThread := none, currentSessionId := none, stopEventId := none,
    appHandle := none, nextTok := 0, nextTid := 0,
    alive := [], setTokens := [], spawned := [] }

/-- `_monitor_thread is not None and _monitor_thread.is_alive()`. -/
def threadAlive (w : World) : Bool :=
  match w.monitorThread with
  | none => false
  | some t => w.alive.contains t.tid

/-- `is_running()`: true iff the stored thread handle exists and is alive. -/
def isRunning (w : World) : Bool :=
  threadAlive w

/-- `start_monitor(session_id, app)`.  Under the lock: if the stored thread
is alive, return `False` and change nothing; otherwise mint a fresh
`threading.Event`, store session id / app / event, spawn one new thread
bound to `(session_id, app, stop_event)` and return `True`. -/
def startMonitor (w : World) (sessionId : Int) (app : Nat) : Bool × World :=
  if threadAlive w then
    (false, w)
  else
    let t : ThreadRec := { tid := w.nextTid, tokenId := w.nextTok, sessionId := sessionId }
    (true,
      { w with
        monitorThread := some t
        currentSessionId := some sessionId
        stopEventId := some w.nextTok
        appHandle := some app
        nextTok := w.nextTok + 1
        nextTid := w.nextTid + 1
        alive := t.tid :: w.alive
        spawned := t :: w.spawned })

/-- `stop_monitor(timeout)`.  Reads `_monitor_thread` and `_stop_event`
under the lock; if no thread or not alive, returns at once changing
nothing.  Otherwise sets the event, joins with a timeout — `joinOk` says
whether the thread terminated within the timeout — and finally clears
`_monitor_thread` (and nothing else: `_current_session_id`, `_app` and
`_stop_event` are left as they were). -/
def stopMonitor (w : World) (joinOk : Bool) : World :=
  match w.monitorThread with
  | none => w
  | some t =>
    if w.alive.contains t.tid then
      let setTokens' :=
        match w.stopEventId with
        | none => w.setTokens
        | some e => e :: w.setTokens
      let alive' := if joinOk then w.alive.filter (fun x => x != t.tid) else w.alive
      { w with monitorThread := none, setTokens := setTokens', alive := alive' }
    else w

/-- A capture thread's loop exiting on its own (its token was observed set,
or a fatal error such as `PermissionError` occurred): the thread stops
being alive; no module-level field is touched. -/
def threadExit (w : World) (tid : Nat) : World :=
  { w with alive := w.alive.filter (fun x => x != tid) }

/-- The cancellation check a capture loop performs: `stop_event.is_set()`
for the one event object it was handed at spawn time. -/
def cancelRequested (setToks : List Nat) (t : ThreadRec) : Bool :=
  setToks.contains t.tokenId

/-- External actions driving the lifecycle: a call to `start_monitor`, a
call to `stop_monitor` (with `joinOk` telling whether the join finished
within the timeout), or a capture thread exiting on its own. -/
inductive Act where
  | startM (sessionId : Int) (app : Nat)
  | stopM (joinOk : Bool)
  | exitT (tid : Nat)
deriving DecidableEq, Repr

/-- One external action applied to the module state. -/
def step (w : World) : Act → World
  | .startM sid app => (startMonitor w sid app).2
  | .stopM j => stopMonitor w j
  | .exitT tid => threadExit w tid

/-- A sequence of external actions applied in order. -/
def runActs (w : World) : List Act → World
  | [] => w
  | a :: acts => runActs (step w a) acts

/-- Allocation-counter bound: every event id recorded in the state sits
below the counter, so the counter's current value was never handed out.
It holds of `initWorld` and is preserved by every action. -/
def tokBound (w : World) : Bool :=
  w.spawned.all (fun t => t.tokenId < w.nextTok) &&
  w.setTokens.all (fun e => e < w.nextTok)

/-- Whether an action is a `stop_monitor` call whose join timed out with
the thread still alive. -/
def noTimeoutStop : Act → Bool
  | .stopM j => j
  | _ => true

/-- Single-thread bookkeeping invariant: the only possibly-alive capture
thread is the one held in `_monitor_thread`. -/
def aliveInv (w : World) : Bool :=
  match w.monitorThread with
  | none => w.alive = ([] : List Nat)
  | some t => w.alive = ([] : List Nat) || w.alive = [t.tid]

/-! ## The capture loop (`_capture_loop`) -/

/-- What one invocation of `scapy.sniff` inside the `while` loop did:
returned normally (timeout slice elapsed or `stop_filter` fired), raised
`PermissionError`, or raised any other exception. -/
inductive SniffResult where
  | ok
  | permError
  | otherError
deriving DecidableEq, Repr

/-- The per-iteration observations of the loop: whether
`stop_event.is_set()` held at the top of the `while`, what `sniff` did,
and whether `stop_event.is_set()` held when the `except Exception`
arm checked it. -/
structure LoopStep where
  setAtTop : Bool
  result : SniffResult
  setAtErr : Bool
deriving DecidableEq, Repr

/-- Observable events of the capture loop body. -/
inductive LoopEvent where
  | sniffCall
  | logPermError
  | logRetryError
  | sleepBackoff (secs : Nat)
  | logExit
deriving DecidableEq, Repr

/-- Whether the loop has exited (`Stopped`) or is still going when the
script of observations runs out (`Running`). -/
inductive LoopOutcome where
  | stopped
  | running
deriving DecidableEq, Repr

/-- The `while not stop_event.is_set()` body of `_capture_loop`:
`sniff(...)` inside `try`; `except PermissionError` logs once and breaks;
`except Exception` breaks at once if the event is set, else logs, sleeps 2
seconds and retries; after the loop, the exit is logged. -/
def runLoop : List LoopStep → List LoopEvent × LoopOutcome
  | [] => ([], .running)
  | s :: rest =>
    if s.setAtTop then ([.logExit], .stopped)
    else
      match s.result with
      | .ok =>
        let r := runLoop rest
        (.sniffCall :: r.1, r.2)
      | .permError =>
        ([.sniffCall, .logPermError, .logExit], .stopped)
      | .otherError =>
        if s.setAtErr then ([.sniffCall, .logExit], .stopped)
        else
          let r := runLoop rest
          (.sniffCall :: .logRetryError :: .sleepBackoff 2 :: r.1, r.2)

/-! ## The packet sink (`_handle_packet`) -/

/-- A Python exception raised by a collaborator: the persistence write
(`db_service.log_packet`) or the live publish (`_socketio.emit`). -/
inductive PyExc where
  | dbExc
  | emitExc
deriving DecidableEq, Repr

/-- A captured frame as `_handle_packet` inspects it: which Scapy layers
it has (`haslayer(IP/TCP/UDP/ICMP)`), the IP layer's `src`/`dst`/`proto`
fields and `len(packet)`. -/
structure Packet where
  hasIP : Bool
  hasTCP : Bool
  hasUDP : Bool
  hasICMP : Bool
  src : String
  dst : String
  len : Nat
  proto : Nat
deriving DecidableEq, Repr

/-- The protocol-name classification of `_handle_packet`: TCP first, then
UDP, then ICMP, else `str(ip_layer.proto)`. -/
def classifyProtocol (pkt : Packet) : String :=
  if pkt.hasTCP then "TCP"
  else if pkt.hasUDP then "UDP"
  else if pkt.hasICMP then "ICMP"
  else toString pkt.proto

/-- The `packet_data` dict built for the `packet_update` WebSocket event. -/
structure PacketData where
  protocol : String
  source_ip : String
  dest_ip : String
  size_bytes : Nat
  session_id : Int
  timestamp : Nat
deriving DecidableEq, Repr

/-- Observable events of the sink: the call into `db_service.log_packet`
with its arguments, the error log of its `except` arm, the call into
`_socketio.emit`, the error log of its `except` arm, and the outer
broad-catch error log. -/
inductive SinkEvent where
  | recordCall (session_id : Int) (protocol source_ip dest_ip : String) (size_bytes : Nat)
  | logDbError
  | emitCall (event : String) (data : PacketData)
  | logEmitError
  | logHandleError
deriving DecidableEq, Repr

/-- A Python computation: the trace of events it produced and the
exception it raised, if any. -/
abbrev PyComp := List SinkEvent × Option PyExc

/-- Sequencing of Python statements: an exception aborts the rest. -/
def pseq (a b : PyComp) : PyComp :=
  match a with
  | (evs, some e) => (evs, some e)
  | (evs, none) => (evs ++ b.1, b.2)

/-- A `try: body except Exception: <log onErr>` block: the handler
swallows any exception, appending its log events. -/
def tryCatch (body : PyComp) (onErr : List SinkEvent) : PyComp :=
  match body with
  | (evs, none) => (evs, none)
  | (evs, some _) => (evs ++ onErr, none)

/-- The call `db_service.log_packet(session_id, protocol, source_ip,
dest_ip, size_bytes)` inside the pushed app context; `dbRaises` says
whether the persistence collaborator raises on this call. -/
def callLogPacket (dbRaises : Bool) (sessionId : Int)
    (protocol src dst : String) (size : Nat) : PyComp :=
  ([.recordCall sessionId protocol src dst size],
   if dbRaises then some .dbExc else none)

/-- The call `_socketio.emit("packet_update", packet_data, namespace="/")`;
`emitRaises` says whether the notification collaborator raises. -/
def callEmit (emitRaises : Bool) (data : PacketData) : PyComp :=
  ([.emitCall "packet_update" data],
   if emitRaises then some .emitExc else none)

/-- `_handle_packet(packet, session_id, app)`.  `sioInjected` is
`_socketio is not None` (whether `set_socketio` was called).  Non-IP
frames return at once.  Otherwise the protocol is classified, the
`packet_data` payload is built with the current time, the DB write is
attempted inside its own `try/except`, then — only if a SocketIO instance
was injected — the emit is attempted inside its own `try/except`; the
whole body sits inside a broad `try/except`. -/
def handlePacket (sioInjected dbRaises emitRaises : Bool) (now : Nat)
    (pkt : Packet) (sessionId : Int) : PyComp :=
  if !pkt.hasIP then ([], none)
  else
    let protocol := classifyProtocol pkt
    let data : PacketData :=
      { protocol := protocol, source_ip := pkt.src, dest_ip := pkt.dst,
        size_bytes := pkt.len, session_id := sessionId, timestamp := now }
    let dbStep := tryCatch (callLogPacket dbRaises sessionId protocol pkt.src pkt.dst pkt.len)
      [.logDbError]
    let emitStep :=
      if sioInjected then tryCatch (callEmit emitRaises data) [.logEmitError]
      else ([], none)
    tryCatch (pseq dbStep emitStep) [.logHandleError]

/-- Recogniser for persistence-call events. -/
def isRecordCall : SinkEvent → Bool
  | .recordCall _ _ _ _ _ => true
  | _ => false

/-- Recogniser for publish-call events. -/
def isEmitCall : SinkEvent → Bool
  | .emitCall _ _ => true
  | _ => false

/-! ## Claim theorems -/

/-- C5: for every IP frame the classifier assigns "TCP" if the frame has a
TCP layer (regardless of UDP/ICMP markers), else "UDP" if it has a UDP
layer, else "ICMP" if it has an ICMP layer, else the raw numeric IP
protocol field rendered as a decimal string. -/
theorem classification_order (pkt : Packet) (_hip : pkt.hasIP = true) :
    (pkt.hasTCP = true → classifyProtocol pkt = "TCP") ∧
    (pkt.hasTCP = false → pkt.hasUDP = true → classifyProtocol pkt = "UDP") ∧
    (pkt.hasTCP = false → pkt.hasUDP = false → pkt.hasICMP = true →
      classifyProtocol pkt = "ICMP") ∧
    (pkt.hasTCP = false → pkt.hasUDP = false → pkt.hasICMP = false →
      classifyProtocol pkt = toString pkt.proto) := by
  refine ⟨?_, ?_, ?_, ?_⟩ <;> intros <;> simp [classifyProtocol, *]

/-- Witness for C5 at a synthetic frame carrying both a TCP and a UDP
marker: it is classified "TCP". -/
theorem classification_order_witness :
    (Packet.mk true true true false "203.0.113.50" "10.0.0.5" 512 6).hasIP = true ∧
    classifyProtocol (Packet.mk true true true false "203.0.113.50" "10.0.0.5" 512 6) = "TCP" :=
  ⟨rfl,
    (classification_order (Packet.mk true true true false "203.0.113.50" "10.0.0.5" 512 6)
      rfl).1 rfl⟩

/-- C8: a frame with no IP layer makes the sink return with no side
effect at all — no event in the trace, no exception. -/
theorem nonIP_skipped (sio dbR emitR : Bool) (now : Nat) (pkt : Packet) (sid : Int)
    (h : pkt.hasIP = false) :
    handlePacket sio dbR emitR now pkt sid = ([], none) := by
  simp [handlePacket, h]

/-- Witness for C8 at a synthetic ARP-like frame. -/
theorem nonIP_skipped_witness :
    (Packet.mk false false false false "0.0.0.0" "255.255.255.255" 42 0).hasIP = false ∧
    handlePacket true false false 5
      (Packet.mk false false false false "0.0.0.0" "255.255.255.255" 42 0) 1 = ([], none) :=
  ⟨rfl, nonIP_skipped true false false 5 _ 1 rfl⟩

/-- C4: for every IP frame and every combination of collaborator failures,
the sink calls the persistence write exactly once (first, with the
classified arguments), still attempts the publish exactly once whenever a
SocketIO instance is injected, and raises no exception out of the sink. -/
theorem sink_failure_isolation (sio dbR emitR : Bool) (now : Nat) (pkt : Packet) (sid : Int)
    (h : pkt.hasIP = true) :
    ((handlePacket sio dbR emitR now pkt sid).1.countP isRecordCall = 1) ∧
    ((handlePacket sio dbR emitR now pkt sid).1.head? =
      some (SinkEvent.recordCall sid (classifyProtocol pkt) pkt.src pkt.dst pkt.len)) ∧
    (sio = true → (handlePacket sio dbR emitR now pkt sid).1.countP isEmitCall = 1) ∧
    (handlePacket sio dbR emitR now pkt sid).2 = none := by
  cases sio <;> cases dbR <;> cases emitR <;>
    simp [handlePacket, h, tryCatch, pseq, callLogPacket, callEmit,
      List.countP_cons, List.countP_nil, isRecordCall, isEmitCall]

/-- Witness for C4 with both collaborators failing on an IP frame. -/
theorem sink_failure_isolation_witness :
    (Packet.mk true true false false "203.0.113.50" "10.0.0.5" 512 6).hasIP = true ∧
    ((handlePacket true true true 0
        (Packet.mk true true false false "203.0.113.50" "10.0.0.5" 512 6) 7).1.countP
      isRecordCall = 1) ∧
    ((handlePacket true true true 0
        (Packet.mk true true false false "203.0.113.50" "10.0.0.5" 512 6) 7).1.countP
      isEmitCall = 1) ∧
    (handlePacket true true true 0
        (Packet.mk true true false false "203.0.113.50" "10.0.0.5" 512 6) 7).2 = none := by
  have h := sink_failure_isolation true true true 0
    (Packet.mk true true false false "203.0.113.50" "10.0.0.5" 512 6) 7 rfl
  exact ⟨rfl, h.1, h.2.2.1 rfl, h.2.2.2⟩

/-- C6: for every matched IP frame under session `sid`, whatever the
collaborators do, the trace holds exactly one persistence call, and it
carries `(sid, classified protocol, IP source, IP destination, frame
length)`; and exactly one publish call, a "packet_update" event whose
payload carries the same fields plus the session id and timestamp. -/
theorem end_to_end_dataflow (dbR emitR : Bool) (now : Nat) (pkt : Packet) (sid : Int)
    (h : pkt.hasIP = true) :
    ((handlePacket true dbR emitR now pkt sid).1.countP isRecordCall = 1) ∧
    (SinkEvent.recordCall sid (classifyProtocol pkt) pkt.src pkt.dst pkt.len
      ∈ (handlePacket true dbR emitR now pkt sid).1) ∧
    ((handlePacket true dbR emitR now pkt sid).1.countP isEmitCall = 1) ∧
    (SinkEvent.emitCall "packet_update"
        (PacketData.mk (classifyProtocol pkt) pkt.src pkt.dst pkt.len sid now)
      ∈ (handlePacket true dbR emitR now pkt sid).1) := by
  cases dbR <;> cases emitR <;>
    simp [handlePacket, h, tryCatch, pseq, callLogPacket, callEmit,
      List.countP_cons, List.countP_nil, isRecordCall, isEmitCall]

/-- Witness for C6 at the spec's end-to-end scenario: session 7, a TCP
frame of 512 bytes from 203.0.113.50 to 10.0.0.5; the persistence call
receives `(7, "TCP", "203.0.113.50", "10.0.0.5", 512)` and one
"packet_update" publish carries the matching payload. -/
theorem end_to_end_dataflow_witness :
    (Packet.mk true true false false "203.0.113.50" "10.0.0.5" 512 6).hasIP = true ∧
    (SinkEvent.recordCall 7 "TCP" "203.0.113.50" "10.0.0.5" 512
      ∈ (handlePacket true false false 0
          (Packet.mk true true false false "203.0.113.50" "10.0.0.5" 512 6) 7).1) ∧
    (SinkEvent.emitCall "packet_update"
        (PacketData.mk "TCP" "203.0.113.50" "10.0.0.5" 512 7 0)
      ∈ (handlePacket true false false 0
          (Packet.mk true true false false "203.0.113.50" "10.0.0.5" 512 6) 7).1) := by
  have h := end_to_end_dataflow false false 0
    (Packet.mk true true false false "203.0.113.50" "10.0.0.5" 512 6) 7 rfl
  exact ⟨rfl, h.2.1, h.2.2.2⟩

/-- C10: if `set_socketio` was never called, the sink for a matched IP
frame still attempts the persistence write but makes no publish attempt
at all, and raises nothing. -/
theorem publish_requires_injection (dbR emitR : Bool) (now : Nat) (pkt : Packet) (sid : Int)
    (h : pkt.hasIP = true) :
    ((handlePacket false dbR emitR now pkt sid).1.countP isEmitCall = 0) ∧
    ((handlePacket false dbR emitR now pkt sid).1.countP isRecordCall = 1) ∧
    (handlePacket false dbR emitR now pkt sid).2 = none := by
  cases dbR <;>
    simp [handlePacket, h, tryCatch, pseq, callLogPacket, callEmit,
      List.countP_cons, List.countP_nil, isRecordCall, isEmitCall]

/-- Witness for C10 on a UDP frame with the persistence write failing. -/
theorem publish_requires_injection_witness :
    (Packet.mk true false true false "203.0.113.50" "10.0.0.5" 64 17).hasIP = true ∧
    ((handlePacket false true false 3
        (Packet.mk true false true false "203.0.113.50" "10.0.0.5" 64 17) 2).1.countP
      isEmitCall = 0) ∧
    ((handlePacket false true false 3
        (Packet.mk true false true false "203.0.113.50" "10.0.0.5" 64 17) 2).1.countP
      isRecordCall = 1) :=
  ⟨rfl,
    (publish_requires_injection true false 3
      (Packet.mk true false true false "203.0.113.50" "10.0.0.5" 64 17) 2 rfl).1,
    (publish_requires_injection true false 3
      (Packet.mk true false true false "203.0.113.50" "10.0.0.5" 64 17) 2 rfl).2.1⟩

/-- C3: a `PermissionError` from the capture primitive produces exactly
one error log and stops the loop, ignoring the rest of the script (no
retry); any other exception while the token is unset logs, sleeps the
fixed 2-second backoff and re-enters the loop on the rest of the script;
any other exception while the token is set exits at once with no backoff;
and a script of nothing but non-permission errors with the token unset
never stops the loop (unbounded retry). -/
theorem capture_loop_error_policy :
    (∀ (b : Bool) (rest : List LoopStep),
      runLoop (LoopStep.mk false .permError b :: rest) =
        ([.sniffCall, .logPermError, .logExit], .stopped)) ∧
    (∀ rest : List LoopStep,
      runLoop (LoopStep.mk false .otherError false :: rest) =
        (.sniffCall :: .logRetryError :: .sleepBackoff 2 :: (runLoop rest).1,
          (runLoop rest).2)) ∧
    (∀ rest : List LoopStep,
      runLoop (LoopStep.mk false .otherError true :: rest) =
        ([.sniffCall, .logExit], .stopped)) ∧
    (∀ n : Nat,
      (runLoop (List.replicate n (LoopStep.mk false .otherError false))).2 = .running) := by
  refine ⟨fun b rest => rfl, fun rest => rfl, fun rest => rfl, fun n => ?_⟩
  induction n with
  | zero => rfl
  | succ k ih => simpa [List.replicate_succ, runLoop] using ih

/-- C1: while the stored capture thread is alive, `start_monitor` returns
false and changes nothing (so spawns no thread); when no capture thread
is alive, it returns true and spawns exactly one new thread, which is
alive; hence a second start right after a successful one returns false
and changes nothing, leaving exactly the one loop running. -/
theorem start_idempotent_by_rejection :
    (∀ (w : World) (sid : Int) (app : Nat), threadAlive w = true →
      startMonitor w sid app = (false, w)) ∧
    (∀ (w : World) (sid : Int) (app : Nat), threadAlive w = false →
      (startMonitor w sid app).1 = true ∧
      (startMonitor w sid app).2.spawned.length = w.spawned.length + 1 ∧
      threadAlive (startMonitor w sid app).2 = true) ∧
    (∀ (w : World) (sid sid' : Int) (app app' : Nat), threadAlive w = false →
      startMonitor (startMonitor w sid app).2 sid' app' =
        (false, (startMonitor w sid app).2)) := by
  have hrej : ∀ (w : World) (sid : Int) (app : Nat), threadAlive w = true →
      startMonitor w sid app = (false, w) := by
    intro w sid app h
    unfold startMonitor
    rw [h]
    simp
  have halive : ∀ (w : World) (sid : Int) (app : Nat), threadAlive w = false →
      threadAlive (startMonitor w sid app).2 = true := by
    intro w sid app h
    unfold startMonitor
    rw [h]
    simp [threadAlive]
  refine ⟨hrej, ?_, ?_⟩
  · intro w sid app h
    refine ⟨?_, ?_, halive w sid app h⟩
    · unfold startMonitor
      rw [h]
      simp
    · unfold startMonitor
      rw [h]
      simp
  · intro w sid sid' app app' h
    exact hrej _ sid' app' (halive w sid app h)

/-- Witness for C1 from the module's initial state: the first start
succeeds, the second start without an intervening stop is rejected and
leaves the state unchanged. -/
theorem start_idempotent_by_rejection_witness :
    threadAlive initWorld = false ∧
    startMonitor (startMonitor initWorld 1 0).2 2 0 =
      (false, (startMonitor initWorld 1 0).2) :=
  ⟨rfl, start_idempotent_by_rejection.2.2 initWorld 1 2 0 0 rfl⟩

/-- C7 counterexample: from the initial state, after a successful start
followed by a completed stop, the stored session id is still non-null
while the monitor is not running, so "activeSession is non-null iff
running" fails at this observable point. -/
theorem session_invariant_counterexample :
    ¬ (((stopMonitor (startMonitor initWorld 1 0).2 true).currentSessionId ≠ none) ↔
        isRunning (stopMonitor (startMonitor initWorld 1 0).2 true) = true) := by
  decide

/-- C7 amended: `stop_monitor` on a running monitor clears the stored
thread handle (so the monitor reports not running) whether or not the
join finished in time, but the stored session id is left exactly as it
was — it is never cleared. -/
theorem stop_clears_thread_keeps_session (w : World) (jo : Bool)
    (h : threadAlive w = true) :
    (stopMonitor w jo).monitorThread = none ∧
    (stopMonitor w jo).currentSessionId = w.currentSessionId ∧
    isRunning (stopMonitor w jo) = false := by
  match hm : w.monitorThread with
  | none => simp [threadAlive, hm] at h
  | some t =>
    have hc : w.alive.contains t.tid = true := by
      simpa [threadAlive, hm] using h
    have hmem : t.tid ∈ w.alive := by simpa using hc
    unfold stopMonitor
    rw [hm]
    simp [hc, hmem, isRunning, threadAlive]

/-- Witness for C7's amended statement: start then stop from the initial
state; the thread handle is gone, the session id `1` is retained. -/
theorem stop_clears_thread_keeps_session_witness :
    threadAlive (startMonitor initWorld 1 0).2 = true ∧
    (stopMonitor (startMonitor initWorld 1 0).2 true).monitorThread = none ∧
    (stopMonitor (startMonitor initWorld 1 0).2 true).currentSessionId =
      (startMonitor initWorld 1 0).2.currentSessionId ∧
    isRunning (stopMonitor (startMonitor initWorld 1 0).2 true) = false :=
  ⟨by decide, stop_clears_thread_keeps_session (startMonitor initWorld 1 0).2 true (by decide)⟩

/-- Helper: the explicit result of a successful `start_monitor`. -/
lemma startMonitor_eq (w : World) (sid : Int) (app : Nat) (h : threadAlive w = false) :
    startMonitor w sid app = (true,
      { w with
        monitorThread := some (ThreadRec.mk w.nextTid w.nextTok sid)
        currentSessionId := some sid
        stopEventId := some w.nextTok
        appHandle := some app
        nextTok := w.nextTok + 1
        nextTid := w.nextTid + 1
        alive := w.nextTid :: w.alive
        spawned := ThreadRec.mk w.nextTid w.nextTok sid :: w.spawned }) := by
  unfold startMonitor
  rw [h]
  simp

/-- Helper: the fields of `stop_monitor`'s result when a live thread was
stored. -/
lemma stopMonitor_fields (w : World) (t : ThreadRec) (jo : Bool)
    (hm : w.monitorThread = some t) (hc : t.tid ∈ w.alive) :
    (stopMonitor w jo).monitorThread = none ∧
    (stopMonitor w jo).setTokens =
      (match w.stopEventId with
        | none => w.setTokens
        | some e => e :: w.setTokens) ∧
    (stopMonitor w jo).nextTok = w.nextTok ∧
    (stopMonitor w jo).nextTid = w.nextTid ∧
    (stopMonitor w jo).currentSessionId = w.currentSessionId := by
  unfold stopMonitor
  rw [hm]
  simp [hc]

/-- Helper: a state with no stored thread handle is not running. -/
lemma threadAlive_of_none (w : World) (hm : w.monitorThread = none) :
    threadAlive w = false := by
  simp [threadAlive, hm]

/-- Helper: a value at least as large as a strict bound on a list's
elements is not in the list. -/
lemma contains_eq_false_of_lt (l : List Nat) (n m : Nat)
    (h : ∀ e ∈ l, e < n) (hm : n ≤ m) : l.contains m = false := by
  have hnm : m ∉ l := fun hmem => absurd (h m hmem) (by omega)
  simpa using hnm

/-- C2: in a counter-bounded state with no live thread, the first start
succeeds and mints a token different from every previously spawned
thread's token and never yet signalled; after start → stop → start the
second loop's token differs from the first's, the stop signalled the
first token, and the second loop's cancellation check stays false even
after the first token is set once more. -/
theorem fresh_token_no_cross_signal (w : World) (sid1 sid2 : Int) (app1 app2 : Nat)
    (jo : Bool) (hb : tokBound w = true) (hal : threadAlive w = false) :
    (startMonitor w sid1 app1).1 = true ∧
    (startMonitor w sid1 app1).2.monitorThread =
      some (ThreadRec.mk w.nextTid w.nextTok sid1) ∧
    (∀ t ∈ w.spawned, t.tokenId ≠ w.nextTok) ∧
    cancelRequested w.setTokens (ThreadRec.mk w.nextTid w.nextTok sid1) = false ∧
    (startMonitor (stopMonitor (startMonitor w sid1 app1).2 jo) sid2 app2).1 = true ∧
    (startMonitor (stopMonitor (startMonitor w sid1 app1).2 jo) sid2 app2).2.monitorThread =
      some (ThreadRec.mk (w.nextTid + 1) (w.nextTok + 1) sid2) ∧
    (w.nextTok + 1 ≠ w.nextTok) ∧
    cancelRequested (stopMonitor (startMonitor w sid1 app1).2 jo).setTokens
      (ThreadRec.mk w.nextTid w.nextTok sid1) = true ∧
    cancelRequested
      (w.nextTok ::
        (startMonitor (stopMonitor (startMonitor w sid1 app1).2 jo) sid2 app2).2.setTokens)
      (ThreadRec.mk (w.nextTid + 1) (w.nextTok + 1) sid2) = false := by
  have hb2 := hb
  simp only [tokBound, Bool.and_eq_true, List.all_eq_true, decide_eq_true_eq] at hb2
  obtain ⟨hsp, hst⟩ := hb2
  have e1 := startMonitor_eq w sid1 app1 hal
  have hm1 : (startMonitor w sid1 app1).2.monitorThread =
      some (ThreadRec.mk w.nextTid w.nextTok sid1) := by rw [e1]
  have hc1 : (ThreadRec.mk w.nextTid w.nextTok sid1).tid ∈
      (startMonitor w sid1 app1).2.alive := by
    rw [e1]
    exact List.mem_cons_self _ _
  obtain ⟨h2m, h2s0, h2tok, h2tid, _⟩ :=
    stopMonitor_fields (startMonitor w sid1 app1).2
      (ThreadRec.mk w.nextTid w.nextTok sid1) jo hm1 hc1
  have h2s : (stopMonitor (startMonitor w sid1 app1).2 jo).setTokens =
      w.nextTok :: w.setTokens := by rw [h2s0, e1]
  have hal2 := threadAlive_of_none _ h2m
  have e2 := startMonitor_eq _ sid2 app2 hal2
  refine ⟨by rw [e1], hm1, ?_, ?_, ?_, ?_, by omega, ?_, ?_⟩
  · intro t ht
    exact Nat.ne_of_lt (hsp t ht)
  · simp only [cancelRequested]
    exact contains_eq_false_of_lt w.setTokens w.nextTok w.nextTok hst (Nat.le_refl _)
  · rw [e2]
  · rw [e2]
    simp only [h2tok, h2tid]
    rw [e1]
  · simp only [cancelRequested, h2s]
    simp
  · rw [e2]
    simp only [cancelRequested, h2s]
    refine contains_eq_false_of_lt _ (w.nextTok + 1) (w.nextTok + 1) ?_ (Nat.le_refl _)
    intro e he
    rcases List.mem_cons.mp he with h | he2
    · omega
    rcases List.mem_cons.mp he2 with h | he3
    · omega
    · exact Nat.lt_succ_of_lt (hst e he3)

/-- Witness for C2 from the module's initial state with a timed-out stop
join: the second loop's token `1` differs from the first loop's token `0`
and its cancellation check stays false after the stop. -/
theorem fresh_token_no_cross_signal_witness :
    (tokBound initWorld = true ∧ threadAlive initWorld = false) ∧
    (startMonitor (stopMonitor (startMonitor initWorld 1 0).2 false) 2 0).2.monitorThread =
      some (ThreadRec.mk 1 1 2) ∧
    cancelRequested
      (0 :: (startMonitor (stopMonitor (startMonitor initWorld 1 0).2 false) 2 0).2.setTokens)
      (ThreadRec.mk 1 1 2) = false := by
  have h := fresh_token_no_cross_signal initWorld 1 2 0 0 false rfl rfl
  exact ⟨⟨rfl, rfl⟩, h.2.2.2.2.2.1, h.2.2.2.2.2.2.2.2⟩

/-- Helper: a non-running state that satisfies the bookkeeping invariant
has no live capture thread at all. -/
lemma alive_nil_of_not_running (w : World) (hw : aliveInv w = true)
    (hal : threadAlive w = false) : w.alive = [] := by
  unfold aliveInv at hw
  unfold threadAlive at hal
  cases hm : w.monitorThread with
  | none =>
    rw [hm] at hw
    simpa using hw
  | some t =>
    rw [hm] at hw hal
    have hw2 : w.alive = [] ∨ w.alive = [t.tid] := by simpa using hw
    have hal2 : t.tid ∉ w.alive := by simpa using hal
    rcases hw2 with h1 | h2
    · exact h1
    · rw [h2] at hal2
      simp at hal2

/-- Helper: `stop_monitor` with no stored thread handle changes nothing. -/
lemma stopMonitor_none (w : World) (jo : Bool) (hm : w.monitorThread = none) :
    stopMonitor w jo = w := by
  unfold stopMonitor
  rw [hm]

/-- Helper: `stop_monitor` with a stored but dead thread changes nothing
(the early return fires before `_monitor_thread` would be cleared). -/
lemma stopMonitor_dead (w : World) (t : ThreadRec) (jo : Bool)
    (hm : w.monitorThread = some t) (hc : t.tid ∉ w.alive) :
    stopMonitor w jo = w := by
  unfold stopMonitor
  rw [hm]
  simp [hc]

/-- Helper: the explicit result of `stop_monitor` on a live thread. -/
lemma stopMonitor_eq_of_alive (w : World) (t : ThreadRec) (jo : Bool)
    (hm : w.monitorThread = some t) (hc : t.tid ∈ w.alive) :
    stopMonitor w jo =
      { w with
        monitorThread := none
        setTokens :=
          (match w.stopEventId with
            | none => w.setTokens
            | some e => e :: w.setTokens)
        alive := if jo then w.alive.filter (fun x => x != t.tid) else w.alive } := by
  unfold stopMonitor
  rw [hm]
  simp [hc]

/-- Helper: every action other than a timed-out stop preserves the
single-thread bookkeeping invariant. -/
lemma aliveInv_step (w : World) (a : Act) (hw : aliveInv w = true)
    (ha : noTimeoutStop a = true) : aliveInv (step w a) = true := by
  cases a with
  | startM sid app =>
    simp only [step]
    cases hal : threadAlive w with
    | true =>
      unfold startMonitor
      rw [hal]
      simpa using hw
    | false =>
      have hempty := alive_nil_of_not_running w hw hal
      rw [startMonitor_eq w sid app hal]
      simp [aliveInv, hempty]
  | stopM j =>
    have hj : j = true := ha
    subst hj
    simp only [step]
    cases hm : w.monitorThread with
    | none =>
      rw [stopMonitor_none w true hm]
      exact hw
    | some t =>
      have hw2 : w.alive = [] ∨ w.alive = [t.tid] := by
        unfold aliveInv at hw
        rw [hm] at hw
        simpa using hw
      by_cases hc : t.tid ∈ w.alive
      · have hone : w.alive = [t.tid] := by
          rcases hw2 with h1 | h2
          · rw [h1] at hc
            simp at hc
          · exact h2
        rw [stopMonitor_eq_of_alive w t true hm hc]
        simp [aliveInv, hone]
      · rw [stopMonitor_dead w t true hm hc]
        exact hw
  | exitT tid =>
    simp only [step]
    unfold threadExit
    unfold aliveInv at hw ⊢
    cases hm : w.monitorThread with
    | none =>
      rw [hm] at hw
      have h1 : w.alive = [] := by simpa using hw
      simp [h1]
    | some t =>
      rw [hm] at hw
      have hw2 : w.alive = [] ∨ w.alive = [t.tid] := by simpa using hw
      rcases hw2 with h1 | h2
      · simp [h1]
      · rw [h2]
        cases hne : (t.tid != tid) <;> simp [List.filter, hne]

/-- Helper: the invariant propagates along any action sequence free of
timed-out stops. -/
lemma aliveInv_runActs (acts : List Act) : ∀ w, aliveInv w = true →
    (∀ a ∈ acts, noTimeoutStop a = true) → aliveInv (runActs w acts) = true := by
  induction acts with
  | nil =>
    intro w hw _
    simpa [runActs] using hw
  | cons a acts ih =>
    intro w hw hall
    simp only [runActs]
    exact ih _ (aliveInv_step w a hw (hall a (List.mem_cons_self _ _)))
      (fun b hb => hall b (List.mem_cons_of_mem _ hb))

/-- Helper: the invariant bounds the number of live capture threads. -/
lemma length_le_one_of_aliveInv (w : World) (h : aliveInv w = true) :
    w.alive.length ≤ 1 := by
  unfold aliveInv at h
  cases hm : w.monitorThread with
  | none =>
    rw [hm] at h
    have h1 : w.alive = [] := by simpa using h
    simp [h1]
  | some t =>
    rw [hm] at h
    have h2 : w.alive = [] ∨ w.alive = [t.tid] := by simpa using h
    rcases h2 with h1 | h1 <;> simp [h1]

/-- C9 counterexample: a stop whose join times out with the old thread
still alive, followed by a new start, yields an instant with two live
capture loop threads, so "never exceeds one" fails as stated. -/
theorem at_most_one_thread_counterexample :
    (runActs initWorld [Act.startM 1 0, Act.stopM false, Act.startM 2 0]).alive.length = 2 := by
  decide

/-- C9 amended: along every sequence of starts, stops and loop exits in
which each stop's join completes within its timeout, the number of live
capture loop threads never exceeds one. -/
theorem at_most_one_thread (acts : List Act)
    (h : ∀ a ∈ acts, noTimeoutStop a = true) :
    (runActs initWorld acts).alive.length ≤ 1 :=
  length_le_one_of_aliveInv _ (aliveInv_runActs acts initWorld (by decide) h)

/-- Witness for C9's amended statement on a start–stop–start sequence
whose stop join succeeds. -/
theorem at_most_one_thread_witness :
    (∀ a ∈ [Act.startM 1 0, Act.stopM true, Act.startM 2 0], noTimeoutStop a = true) ∧
    (runActs initWorld [Act.startM 1 0, Act.stopM true, Act.startM 2 0]).alive.length ≤ 1 :=
  ⟨by decide, at_most_one_thread _ (by decide)⟩

end PacketMonitor
